import Mathlib

/-!
Shallow embedding of the fused collision-and-streaming site-update kernel
`kernel` from `src/codes/lbm_shared_3.cpp` (a HIP `__global__` function for a
two-phase D3Q19/D3Q7 lattice Boltzmann solver).

Modelling conventions:
* `double` values are modelled as exact rationals `ℚ` (the claims are about
  which algebraic values are written where, not about rounding).
* each flat device buffer `double *` is a total function `ℤ → ℚ`; the C code
  performs unchecked pointer arithmetic, so indices live in `ℤ`.
* the scalar parameters of the kernel are collected in `LBMParams`; the unused
  `grav` parameter is kept as a separate explicit argument of the kernel,
  mirroring its place in the C signature.
* thread coordinates `i, j, z` are natural numbers (they come from
  `threadIdx + blockIdx * blockDim`, which is non-negative), and `nx, ny, nz`
  are naturals as well; the guard `i <= nx && j <= ny && z <= nz` is the only
  bounds check, exactly as in the source.
* within one site's body every array is read only before (or at the moment of)
  its single write to that array, so the site update is the simultaneous
  functional update of the 26 written slots with right-hand sides evaluated in
  the pre-call state; this is exact with respect to the sequential C code.
-/

/-- Scalar arguments of the kernel other than `grav` (which is passed
separately): domain extents, strides, double-buffer offsets and the physical
and lattice coefficients. -/
structure LBMParams where
  nx : ℕ
  ny : ℕ
  nz : ℕ
  ldx : ℤ
  ldy : ℤ
  current : ℤ
  next : ℤ
  k : ℚ
  alpha : ℚ
  phi2 : ℚ
  gamma : ℚ
  itauphi : ℚ
  itauphi1 : ℚ
  ieta : ℚ
  itaurho : ℚ
  eg1 : ℚ
  eg2 : ℚ
  eg0 : ℚ
  egc0 : ℚ
  egc1 : ℚ
  egc2 : ℚ

/-- The device buffers passed to the kernel: the order-parameter field and its
precomputed derivatives, the 7 phase-field distribution arrays `f0..f6` and
the 19 hydrodynamic distribution arrays `g0..g18`. -/
structure LBMState where
  phi : ℤ → ℚ
  laplacian_phi : ℤ → ℚ
  grad_phi_x : ℤ → ℚ
  grad_phi_y : ℤ → ℚ
  grad_phi_z : ℤ → ℚ
  f0 : ℤ → ℚ
  f1 : ℤ → ℚ
  f2 : ℤ → ℚ
  f3 : ℤ → ℚ
  f4 : ℤ → ℚ
  f5 : ℤ → ℚ
  f6 : ℤ → ℚ
  g0 : ℤ → ℚ
  g1 : ℤ → ℚ
  g2 : ℤ → ℚ
  g3 : ℤ → ℚ
  g4 : ℤ → ℚ
  g5 : ℤ → ℚ
  g6 : ℤ → ℚ
  g7 : ℤ → ℚ
  g8 : ℤ → ℚ
  g9 : ℤ → ℚ
  g10 : ℤ → ℚ
  g11 : ℤ → ℚ
  g12 : ℤ → ℚ
  g13 : ℤ → ℚ
  g14 : ℤ → ℚ
  g15 : ℤ → ℚ
  g16 : ℤ → ℚ
  g17 : ℤ → ℚ
  g18 : ℤ → ℚ

namespace LBM

/-- `m = i + ldx * (j + ldy * z)`, the flattened site index. -/
def midx (p : LBMParams) (i j z : ℕ) : ℤ :=
  (i : ℤ) + p.ldx * ((j : ℤ) + p.ldy * (z : ℤ))

/-- `rho`: the density recovered at site `m`, read as in the source —
`g0[m]` plus the 18 non-rest populations at `m + current`. -/
def rho (p : LBMParams) (s : LBMState) (m : ℤ) : ℚ :=
  s.g0 m + s.g1 (m + p.current) + s.g2 (m + p.current) + s.g3 (m + p.current) +
    s.g4 (m + p.current) + s.g5 (m + p.current) + s.g6 (m + p.current) +
    s.g7 (m + p.current) + s.g8 (m + p.current) + s.g9 (m + p.current) +
    s.g10 (m + p.current) + s.g11 (m + p.current) + s.g12 (m + p.current) +
    s.g13 (m + p.current) + s.g14 (m + p.current) + s.g15 (m + p.current) +
    s.g16 (m + p.current) + s.g17 (m + p.current) + s.g18 (m + p.current)

/-- `irho = 1.0 / rho`. -/
def irho (p : LBMParams) (s : LBMState) (m : ℤ) : ℚ :=
  1 / rho p s m

/-- `mu_phi = alpha * phi * (phi*phi - phi2) - k * laplacian_phi[m]`. -/
def mu_phi (p : LBMParams) (s : LBMState) (m : ℤ) : ℚ :=
  p.alpha * s.phi m * (s.phi m * s.phi m - p.phi2) - p.k * s.laplacian_phi m

/-- `fx = mu_phi * grad_phi_x[m]`. -/
def fx (p : LBMParams) (s : LBMState) (m : ℤ) : ℚ :=
  mu_phi p s m * s.grad_phi_x m

/-- `fy = mu_phi * grad_phi_y[m]`. -/
def fy (p : LBMParams) (s : LBMState) (m : ℤ) : ℚ :=
  mu_phi p s m * s.grad_phi_y m

/-- `fz = mu_phi * grad_phi_z[m]`. -/
def fz (p : LBMParams) (s : LBMState) (m : ℤ) : ℚ :=
  mu_phi p s m * s.grad_phi_z m

/-- `ux`: recovered x-velocity, the signed first moment plus `0.50 * fx`,
times `irho`. -/
def ux (p : LBMParams) (s : LBMState) (m : ℤ) : ℚ :=
  (s.g1 (m + p.current) - s.g2 (m + p.current) + s.g7 (m + p.current) -
      s.g8 (m + p.current) + s.g9 (m + p.current) - s.g10 (m + p.current) +
      s.g11 (m + p.current) - s.g12 (m + p.current) + s.g13 (m + p.current) -
      s.g14 (m + p.current) + 1/2 * fx p s m) * irho p s m

/-- `uy`: recovered y-velocity. -/
def uy (p : LBMParams) (s : LBMState) (m : ℤ) : ℚ :=
  (s.g3 (m + p.current) - s.g4 (m + p.current) + s.g7 (m + p.current) -
      s.g8 (m + p.current) - s.g9 (m + p.current) + s.g10 (m + p.current) +
      s.g15 (m + p.current) - s.g16 (m + p.current) + s.g17 (m + p.current) -
      s.g18 (m + p.current) + 1/2 * fy p s m) * irho p s m

/-- `uz`: recovered z-velocity. -/
def uz (p : LBMParams) (s : LBMState) (m : ℤ) : ℚ :=
  (s.g5 (m + p.current) - s.g6 (m + p.current) + s.g11 (m + p.current) -
      s.g12 (m + p.current) - s.g13 (m + p.current) + s.g14 (m + p.current) +
      s.g15 (m + p.current) - s.g16 (m + p.current) - s.g17 (m + p.current) +
      s.g18 (m + p.current) + 1/2 * fz p s m) * irho p s m

/-- `af = 0.50 * gamma * mu_phi * itauphi`. -/
def af (p : LBMParams) (s : LBMState) (m : ℤ) : ℚ :=
  1/2 * p.gamma * mu_phi p s m * p.itauphi

/-- `cf = itauphi * ieta * current_phi`. -/
def cf (p : LBMParams) (s : LBMState) (m : ℤ) : ℚ :=
  p.itauphi * p.ieta * s.phi m

/-- `ag = 3.0 * current_phi * mu_phi + rho`. -/
def ag (p : LBMParams) (s : LBMState) (m : ℤ) : ℚ :=
  3 * s.phi m * mu_phi p s m + rho p s m

/-- `v = 1.50 * (ux*ux + uy*uy + uz*uz)`. -/
def vv (p : LBMParams) (s : LBMState) (m : ℤ) : ℚ :=
  3/2 * (ux p s m * ux p s m + uy p s m * uy p s m + uz p s m * uz p s m)

/-- `uf = ux*fx + uy*fy + uz*fz`. -/
def uf (p : LBMParams) (s : LBMState) (m : ℤ) : ℚ :=
  ux p s m * fx p s m + uy p s m * fy p s m + uz p s m * fz p s m

/-- Value written to `f0[m]`. -/
def f0out (p : LBMParams) (s : LBMState) (m : ℤ) : ℚ :=
  p.itauphi1 * s.f0 m + -3 * p.gamma * mu_phi p s m * p.itauphi +
    p.itauphi * s.phi m

/-- Value written to `f1[current_pos]`. -/
def f1out (p : LBMParams) (s : LBMState) (m : ℤ) : ℚ :=
  p.itauphi1 * s.f1 (m + p.current) + af p s m + cf p s m * ux p s m

/-- Value written to `f2[current_pos]`. -/
def f2out (p : LBMParams) (s : LBMState) (m : ℤ) : ℚ :=
  p.itauphi1 * s.f2 (m + p.current) + af p s m - cf p s m * ux p s m

/-- Value written to `f3[current_pos]`. -/
def f3out (p : LBMParams) (s : LBMState) (m : ℤ) : ℚ :=
  p.itauphi1 * s.f3 (m + p.current) + af p s m + cf p s m * uy p s m

/-- Value written to `f4[current_pos]`. -/
def f4out (p : LBMParams) (s : LBMState) (m : ℤ) : ℚ :=
  p.itauphi1 * s.f4 (m + p.current) + af p s m - cf p s m * uy p s m

/-- Value written to `f5[current_pos]`. -/
def f5out (p : LBMParams) (s : LBMState) (m : ℤ) : ℚ :=
  p.itauphi1 * s.f5 (m + p.current) + af p s m + cf p s m * uz p s m

/-- Value written to `f6[current_pos]`. -/
def f6out (p : LBMParams) (s : LBMState) (m : ℤ) : ℚ :=
  p.itauphi1 * s.f6 (m + p.current) + af p s m - cf p s m * uz p s m

/-- Value written to `g0[m]`. -/
def g0out (p : LBMParams) (s : LBMState) (m : ℤ) : ℚ :=
  p.itaurho * s.g0 m +
    p.eg0 * ((rho p s m - 6 * s.phi m * mu_phi p s m) - rho p s m * vv p s m) -
    p.egc0 * uf p s m

/-- `tmp1` for the x-axis pair `g1`/`g2`. -/
def tmp1x (p : LBMParams) (s : LBMState) (m : ℤ) : ℚ :=
  p.eg1 * ag p s m +
    p.eg1 * rho p s m * (1/2 * ux p s m * ux p s m - vv p s m) +
    p.egc1 * (ux p s m * fx p s m - uf p s m)

/-- `tmp2` for the x-axis pair `g1`/`g2`. -/
def tmp2x (p : LBMParams) (s : LBMState) (m : ℤ) : ℚ :=
  p.eg1 * rho p s m * ux p s m + p.egc1 * fx p s m

/-- `tmp1` for the y-axis pair `g3`/`g4`. -/
def tmp1y (p : LBMParams) (s : LBMState) (m : ℤ) : ℚ :=
  p.eg1 * ag p s m +
    p.eg1 * rho p s m * (1/2 * uy p s m * uy p s m - vv p s m) +
    p.egc1 * (uy p s m * fy p s m - uf p s m)

/-- `tmp2` for the y-axis pair `g3`/`g4`. -/
def tmp2y (p : LBMParams) (s : LBMState) (m : ℤ) : ℚ :=
  p.eg1 * rho p s m * uy p s m + p.egc1 * fy p s m

/-- `tmp1` for the z-axis pair `g5`/`g6`. -/
def tmp1z (p : LBMParams) (s : LBMState) (m : ℤ) : ℚ :=
  p.eg1 * ag p s m +
    p.eg1 * rho p s m * (1/2 * uz p s m * uz p s m - vv p s m) +
    p.egc1 * (uz p s m * fz p s m - uf p s m)

/-- `tmp2` for the z-axis pair `g5`/`g6`. -/
def tmp2z (p : LBMParams) (s : LBMState) (m : ℤ) : ℚ :=
  p.eg1 * rho p s m * uz p s m + p.egc1 * fz p s m

/-- `tmp1` for the diagonal pair `g7`/`g8` (direction x+y). -/
def tmp1xy (p : LBMParams) (s : LBMState) (m : ℤ) : ℚ :=
  p.eg2 * ag p s m +
    p.eg2 * rho p s m *
      (1/2 * (ux p s m + uy p s m) * (ux p s m + uy p s m) - vv p s m) +
    p.egc2 * ((ux p s m + uy p s m) * (fx p s m + fy p s m) - uf p s m)

/-- `tmp2` for the diagonal pair `g7`/`g8` (direction x+y). -/
def tmp2xy (p : LBMParams) (s : LBMState) (m : ℤ) : ℚ :=
  p.eg2 * rho p s m * (ux p s m + uy p s m) + p.egc2 * (fx p s m + fy p s m)

/-- `tmp1` for the diagonal pair `g9`/`g10` (direction x−y). -/
def tmp1xmy (p : LBMParams) (s : LBMState) (m : ℤ) : ℚ :=
  p.eg2 * ag p s m +
    p.eg2 * rho p s m *
      (1/2 * (ux p s m - uy p s m) * (ux p s m - uy p s m) - vv p s m) +
    p.egc2 * ((ux p s m - uy p s m) * (fx p s m - fy p s m) - uf p s m)

/-- `tmp2` for the diagonal pair `g9`/`g10` (direction x−y). -/
def tmp2xmy (p : LBMParams) (s : LBMState) (m : ℤ) : ℚ :=
  p.eg2 * rho p s m * (ux p s m - uy p s m) + p.egc2 * (fx p s m - fy p s m)

/-- `tmp1` for the diagonal pair `g11`/`g12` (direction x+z). -/
def tmp1xz (p : LBMParams) (s : LBMState) (m : ℤ) : ℚ :=
  p.eg2 * ag p s m +
    p.eg2 * rho p s m *
      (1/2 * (ux p s m + uz p s m) * (ux p s m + uz p s m) - vv p s m) +
    p.egc2 * ((ux p s m + uz p s m) * (fx p s m + fz p s m) - uf p s m)

/-- `tmp2` for the diagonal pair `g11`/`g12` (direction x+z). -/
def tmp2xz (p : LBMParams) (s : LBMState) (m : ℤ) : ℚ :=
  p.eg2 * rho p s m * (ux p s m + uz p s m) + p.egc2 * (fx p s m + fz p s m)

/-- `tmp1` for the diagonal pair `g13`/`g14` (direction x−z). -/
def tmp1xmz (p : LBMParams) (s : LBMState) (m : ℤ) : ℚ :=
  p.eg2 * ag p s m +
    p.eg2 * rho p s m *
      (1/2 * (ux p s m - uz p s m) * (ux p s m - uz p s m) - vv p s m) +
    p.egc2 * ((ux p s m - uz p s m) * (fx p s m - fz p s m) - uf p s m)

/-- `tmp2` for the diagonal pair `g13`/`g14` (direction x−z). -/
def tmp2xmz (p : LBMParams) (s : LBMState) (m : ℤ) : ℚ :=
  p.eg2 * rho p s m * (ux p s m - uz p s m) + p.egc2 * (fx p s m - fz p s m)

/-- `tmp1` for the diagonal pair `g15`/`g16` (direction y+z). -/
def tmp1yz (p : LBMParams) (s : LBMState) (m : ℤ) : ℚ :=
  p.eg2 * ag p s m +
    p.eg2 * rho p s m *
      (1/2 * (uy p s m + uz p s m) * (uy p s m + uz p s m) - vv p s m) +
    p.egc2 * ((uy p s m + uz p s m) * (fy p s m + fz p s m) - uf p s m)

/-- `tmp2` for the diagonal pair `g15`/`g16` (direction y+z). -/
def tmp2yz (p : LBMParams) (s : LBMState) (m : ℤ) : ℚ :=
  p.eg2 * rho p s m * (uy p s m + uz p s m) + p.egc2 * (fy p s m + fz p s m)

/-- `tmp1` for the diagonal pair `g17`/`g18` (direction y−z). -/
def tmp1ymz (p : LBMParams) (s : LBMState) (m : ℤ) : ℚ :=
  p.eg2 * ag p s m +
    p.eg2 * rho p s m *
      (1/2 * (uy p s m - uz p s m) * (uy p s m - uz p s m) - vv p s m) +
    p.egc2 * ((uy p s m - uz p s m) * (fy p s m - fz p s m) - uf p s m)

/-- `tmp2` for the diagonal pair `g17`/`g18` (direction y−z). -/
def tmp2ymz (p : LBMParams) (s : LBMState) (m : ℤ) : ℚ :=
  p.eg2 * rho p s m * (uy p s m - uz p s m) + p.egc2 * (fy p s m - fz p s m)

/-- Value written to `g1[m + next + 1]`. -/
def g1out (p : LBMParams) (s : LBMState) (m : ℤ) : ℚ :=
  p.itaurho * s.g1 (m + p.current) + tmp1x p s m + tmp2x p s m

/-- Value written to `g2[m + next - 1]`. -/
def g2out (p : LBMParams) (s : LBMState) (m : ℤ) : ℚ :=
  p.itaurho * s.g2 (m + p.current) + tmp1x p s m - tmp2x p s m

/-- Value written to `g3[m + next + ldx]`. -/
def g3out (p : LBMParams) (s : LBMState) (m : ℤ) : ℚ :=
  p.itaurho * s.g3 (m + p.current) + tmp1y p s m + tmp2y p s m

/-- Value written to `g4[m + next - ldx]`. -/
def g4out (p : LBMParams) (s : LBMState) (m : ℤ) : ℚ :=
  p.itaurho * s.g4 (m + p.current) + tmp1y p s m - tmp2y p s m

/-- Value written to `g5[m + next + ldx*ldy]`. -/
def g5out (p : LBMParams) (s : LBMState) (m : ℤ) : ℚ :=
  p.itaurho * s.g5 (m + p.current) + tmp1z p s m + tmp2z p s m

/-- Value written to `g6[m + next - ldx*ldy]`. -/
def g6out (p : LBMParams) (s : LBMState) (m : ℤ) : ℚ :=
  p.itaurho * s.g6 (m + p.current) + tmp1z p s m - tmp2z p s m

/-- Value written to `g7[m + next + 1 + ldx]`. -/
def g7out (p : LBMParams) (s : LBMState) (m : ℤ) : ℚ :=
  p.itaurho * s.g7 (m + p.current) + tmp1xy p s m + tmp2xy p s m

/-- Value written to `g8[m + next - 1 - ldx]`. -/
def g8out (p : LBMParams) (s : LBMState) (m : ℤ) : ℚ :=
  p.itaurho * s.g8 (m + p.current) + tmp1xy p s m - tmp2xy p s m

/-- Value written to `g9[m + next + 1 - ldx]`. -/
def g9out (p : LBMParams) (s : LBMState) (m : ℤ) : ℚ :=
  p.itaurho * s.g9 (m + p.current) + tmp1xmy p s m + tmp2xmy p s m

/-- Value written to `g10[m + next - 1 + ldx]`. -/
def g10out (p : LBMParams) (s : LBMState) (m : ℤ) : ℚ :=
  p.itaurho * s.g10 (m + p.current) + tmp1xmy p s m - tmp2xmy p s m

/-- Value written to `g11[m + next + 1 + ldx*ldy]`. -/
def g11out (p : LBMParams) (s : LBMState) (m : ℤ) : ℚ :=
  p.itaurho * s.g11 (m + p.current) + tmp1xz p s m + tmp2xz p s m

/-- Value written to `g12[m + next - 1 - ldx*ldy]`. -/
def g12out (p : LBMParams) (s : LBMState) (m : ℤ) : ℚ :=
  p.itaurho * s.g12 (m + p.current) + tmp1xz p s m - tmp2xz p s m

/-- Value written to `g13[m + next + 1 - ldx*ldy]`. -/
def g13out (p : LBMParams) (s : LBMState) (m : ℤ) : ℚ :=
  p.itaurho * s.g13 (m + p.current) + tmp1xmz p s m + tmp2xmz p s m

/-- Value written to `g14[m + next - 1 + ldx*ldy]`. -/
def g14out (p : LBMParams) (s : LBMState) (m : ℤ) : ℚ :=
  p.itaurho * s.g14 (m + p.current) + tmp1xmz p s m - tmp2xmz p s m

/-- Value written to `g15[m + next + ldx + ldx*ldy]`. -/
def g15out (p : LBMParams) (s : LBMState) (m : ℤ) : ℚ :=
  p.itaurho * s.g15 (m + p.current) + tmp1yz p s m + tmp2yz p s m

/-- Value written to `g16[m + next - ldx - ldx*ldy]`. -/
def g16out (p : LBMParams) (s : LBMState) (m : ℤ) : ℚ :=
  p.itaurho * s.g16 (m + p.current) + tmp1yz p s m - tmp2yz p s m

/-- Value written to `g17[m + next + ldx - ldx*ldy]`. -/
def g17out (p : LBMParams) (s : LBMState) (m : ℤ) : ℚ :=
  p.itaurho * s.g17 (m + p.current) + tmp1ymz p s m + tmp2ymz p s m

/-- Value written to `g18[m + next - ldx + ldx*ldy]`. -/
def g18out (p : LBMParams) (s : LBMState) (m : ℤ) : ℚ :=
  p.itaurho * s.g18 (m + p.current) + tmp1ymz p s m - tmp2ymz p s m

/-- One thread of the kernel: if `(i, j, z)` passes the bounds guard, perform
all 26 writes of the site body (right-hand sides read the pre-call state,
which is exact for the sequential C body); otherwise return the state
unchanged.  `grav` is received, as in the C signature, and never used. -/
def kernelSite (p : LBMParams) (grav : ℚ) (s : LBMState) (i j z : ℕ) :
    LBMState :=
  if i ≤ p.nx ∧ j ≤ p.ny ∧ z ≤ p.nz then
    let m := midx p i j z
    { s with
      f0 := Function.update s.f0 m (f0out p s m)
      f1 := Function.update s.f1 (m + p.current) (f1out p s m)
      f2 := Function.update s.f2 (m + p.current) (f2out p s m)
      f3 := Function.update s.f3 (m + p.current) (f3out p s m)
      f4 := Function.update s.f4 (m + p.current) (f4out p s m)
      f5 := Function.update s.f5 (m + p.current) (f5out p s m)
      f6 := Function.update s.f6 (m + p.current) (f6out p s m)
      g0 := Function.update s.g0 m (g0out p s m)
      g1 := Function.update s.g1 (m + p.next + 1) (g1out p s m)
      g2 := Function.update s.g2 (m + p.next - 1) (g2out p s m)
      g3 := Function.update s.g3 (m + p.next + p.ldx) (g3out p s m)
      g4 := Function.update s.g4 (m + p.next - p.ldx) (g4out p s m)
      g5 := Function.update s.g5 (m + p.next + p.ldx * p.ldy) (g5out p s m)
      g6 := Function.update s.g6 (m + p.next - p.ldx * p.ldy) (g6out p s m)
      g7 := Function.update s.g7 (m + p.next + 1 + p.ldx) (g7out p s m)
      g8 := Function.update s.g8 (m + p.next - 1 - p.ldx) (g8out p s m)
      g9 := Function.update s.g9 (m + p.next + 1 - p.ldx) (g9out p s m)
      g10 := Function.update s.g10 (m + p.next - 1 + p.ldx) (g10out p s m)
      g11 := Function.update s.g11 (m + p.next + 1 + p.ldx * p.ldy)
        (g11out p s m)
      g12 := Function.update s.g12 (m + p.next - 1 - p.ldx * p.ldy)
        (g12out p s m)
      g13 := Function.update s.g13 (m + p.next + 1 - p.ldx * p.ldy)
        (g13out p s m)
      g14 := Function.update s.g14 (m + p.next - 1 + p.ldx * p.ldy)
        (g14out p s m)
      g15 := Function.update s.g15 (m + p.next + p.ldx + p.ldx * p.ldy)
        (g15out p s m)
      g16 := Function.update s.g16 (m + p.next - p.ldx - p.ldx * p.ldy)
        (g16out p s m)
      g17 := Function.update s.g17 (m + p.next + p.ldx - p.ldx * p.ldy)
        (g17out p s m)
      g18 := Function.update s.g18 (m + p.next - p.ldx + p.ldx * p.ldy)
        (g18out p s m) }
  else s

/-- All thread coordinates `(i, j, z)` with `i ≤ nx`, `j ≤ ny`, `z ≤ nz`:
the threads that pass the kernel's bounds guard. -/
def siteList (p : LBMParams) : List (ℕ × ℕ × ℕ) :=
  (List.range (p.nx + 1)).flatMap fun i =>
    (List.range (p.ny + 1)).flatMap fun j =>
      (List.range (p.nz + 1)).map fun z => (i, j, z)

/-- One full kernel invocation: every in-bounds thread executed (in some
sequential order; the caller guarantees the threads' write sets do not
interfere, and the frame facts proved below hold for any order). -/
def kernelPass (p : LBMParams) (grav : ℚ) (s : LBMState) : LBMState :=
  (siteList p).foldl (fun st t => kernelSite p grav st t.1 t.2.1 t.2.2) s

/-- The buffer index `n` is one of the 26 slots the site `(i, j, z)` writes:
`m` (for `f0`, `g0`), `m + current` (for `f1..f6`) or one of the 18 streaming
targets `m + next + Δ`. -/
def siteWrites (p : LBMParams) (i j z : ℕ) (n : ℤ) : Prop :=
  n = midx p i j z ∨
  n = midx p i j z + p.current ∨
  n = midx p i j z + p.next + 1 ∨
  n = midx p i j z + p.next - 1 ∨
  n = midx p i j z + p.next + p.ldx ∨
  n = midx p i j z + p.next - p.ldx ∨
  n = midx p i j z + p.next + p.ldx * p.ldy ∨
  n = midx p i j z + p.next - p.ldx * p.ldy ∨
  n = midx p i j z + p.next + 1 + p.ldx ∨
  n = midx p i j z + p.next - 1 - p.ldx ∨
  n = midx p i j z + p.next + 1 - p.ldx ∨
  n = midx p i j z + p.next - 1 + p.ldx ∨
  n = midx p i j z + p.next + 1 + p.ldx * p.ldy ∨
  n = midx p i j z + p.next - 1 - p.ldx * p.ldy ∨
  n = midx p i j z + p.next + 1 - p.ldx * p.ldy ∨
  n = midx p i j z + p.next - 1 + p.ldx * p.ldy ∨
  n = midx p i j z + p.next + p.ldx + p.ldx * p.ldy ∨
  n = midx p i j z + p.next - p.ldx - p.ldx * p.ldy ∨
  n = midx p i j z + p.next + p.ldx - p.ldx * p.ldy ∨
  n = midx p i j z + p.next - p.ldx + p.ldx * p.ldy

instance siteWritesDecidable (p : LBMParams) (i j z : ℕ) (n : ℤ) :
    Decidable (siteWrites p i j z n) := by
  unfold siteWrites; infer_instance

/-- The values of the 26 distribution buffers (both families) at index `n`,
collected in one list; two states agree on all distribution arrays at `n`
iff these lists are equal. -/
def distAt (s : LBMState) (n : ℤ) : List ℚ :=
  [s.f0 n, s.f1 n, s.f2 n, s.f3 n, s.f4 n, s.f5 n, s.f6 n,
   s.g0 n, s.g1 n, s.g2 n, s.g3 n, s.g4 n, s.g5 n, s.g6 n, s.g7 n, s.g8 n,
   s.g9 n, s.g10 n, s.g11 n, s.g12 n, s.g13 n, s.g14 n, s.g15 n, s.g16 n,
   s.g17 n, s.g18 n]

/-- The 26 values the site body computes for its writes, in write order:
`f0..f6`, `g0`, then `g1..g18`. -/
def writtenVals (p : LBMParams) (s : LBMState) (m : ℤ) : List ℚ :=
  [f0out p s m, f1out p s m, f2out p s m, f3out p s m, f4out p s m,
   f5out p s m, f6out p s m, g0out p s m,
   g1out p s m, g2out p s m, g3out p s m, g4out p s m, g5out p s m,
   g6out p s m, g7out p s m, g8out p s m, g9out p s m, g10out p s m,
   g11out p s m, g12out p s m, g13out p s m, g14out p s m, g15out p s m,
   g16out p s m, g17out p s m, g18out p s m]

/-! ### Spatially uniform states

For the equilibrium fixed-point property the state is spatially uniform:
every array is constant over the whole index space and the gradient and
Laplacian of `phi` vanish.  A uniform state is described by one value per
array; `constState` embeds it, and `stepU` is the uniform-state dynamics the
kernel induces: since every read the body performs is at the site's own `m`
or `m + current`, all sites of a uniform state compute identical written
values, so the value any site finds at its `current` slot after the pass (and
the buffer swap) is the value the kernel wrote at the corresponding
`m + next + Δ` slot.  `stepU` therefore reads the written slots of one
in-bounds site, `(0, 0, 0)`, of the actual kernel. -/

/-- One value per distribution array plus the (uniform) order parameter. -/
structure UVals where
  phi : ℚ
  f0 : ℚ
  f1 : ℚ
  f2 : ℚ
  f3 : ℚ
  f4 : ℚ
  f5 : ℚ
  f6 : ℚ
  g0 : ℚ
  g1 : ℚ
  g2 : ℚ
  g3 : ℚ
  g4 : ℚ
  g5 : ℚ
  g6 : ℚ
  g7 : ℚ
  g8 : ℚ
  g9 : ℚ
  g10 : ℚ
  g11 : ℚ
  g12 : ℚ
  g13 : ℚ
  g14 : ℚ
  g15 : ℚ
  g16 : ℚ
  g17 : ℚ
  g18 : ℚ
  deriving DecidableEq

/-- The spatially uniform state with values `U`: constant arrays, zero
gradient and zero Laplacian of `phi`. -/
def constState (U : UVals) : LBMState where
  phi := fun _ => U.phi
  laplacian_phi := fun _ => 0
  grad_phi_x := fun _ => 0
  grad_phi_y := fun _ => 0
  grad_phi_z := fun _ => 0
  f0 := fun _ => U.f0
  f1 := fun _ => U.f1
  f2 := fun _ => U.f2
  f3 := fun _ => U.f3
  f4 := fun _ => U.f4
  f5 := fun _ => U.f5
  f6 := fun _ => U.f6
  g0 := fun _ => U.g0
  g1 := fun _ => U.g1
  g2 := fun _ => U.g2
  g3 := fun _ => U.g3
  g4 := fun _ => U.g4
  g5 := fun _ => U.g5
  g6 := fun _ => U.g6
  g7 := fun _ => U.g7
  g8 := fun _ => U.g8
  g9 := fun _ => U.g9
  g10 := fun _ => U.g10
  g11 := fun _ => U.g11
  g12 := fun _ => U.g12
  g13 := fun _ => U.g13
  g14 := fun _ => U.g14
  g15 := fun _ => U.g15
  g16 := fun _ => U.g16
  g17 := fun _ => U.g17
  g18 := fun _ => U.g18

/-- The uniform-state dynamics induced by one kernel invocation (followed by
the caller's `current`/`next` swap): run the thread of site `(0, 0, 0)` of the
embedded kernel on the uniform state and read each array at the slot the body
writes for it. -/
def stepU (p : LBMParams) (grav : ℚ) (U : UVals) : UVals :=
  let s := kernelSite p grav (constState U) 0 0 0
  let m := midx p 0 0 0
  { phi := U.phi
    f0 := s.f0 m
    f1 := s.f1 (m + p.current)
    f2 := s.f2 (m + p.current)
    f3 := s.f3 (m + p.current)
    f4 := s.f4 (m + p.current)
    f5 := s.f5 (m + p.current)
    f6 := s.f6 (m + p.current)
    g0 := s.g0 m
    g1 := s.g1 (m + p.next + 1)
    g2 := s.g2 (m + p.next - 1)
    g3 := s.g3 (m + p.next + p.ldx)
    g4 := s.g4 (m + p.next - p.ldx)
    g5 := s.g5 (m + p.next + p.ldx * p.ldy)
    g6 := s.g6 (m + p.next - p.ldx * p.ldy)
    g7 := s.g7 (m + p.next + 1 + p.ldx)
    g8 := s.g8 (m + p.next - 1 - p.ldx)
    g9 := s.g9 (m + p.next + 1 - p.ldx)
    g10 := s.g10 (m + p.next - 1 + p.ldx)
    g11 := s.g11 (m + p.next + 1 + p.ldx * p.ldy)
    g12 := s.g12 (m + p.next - 1 - p.ldx * p.ldy)
    g13 := s.g13 (m + p.next + 1 - p.ldx * p.ldy)
    g14 := s.g14 (m + p.next - 1 + p.ldx * p.ldy)
    g15 := s.g15 (m + p.next + p.ldx + p.ldx * p.ldy)
    g16 := s.g16 (m + p.next - p.ldx - p.ldx * p.ldy)
    g17 := s.g17 (m + p.next + p.ldx - p.ldx * p.ldy)
    g18 := s.g18 (m + p.next - p.ldx + p.ldx * p.ldy) }

/-- Zeroth moment of the 19 hydrodynamic populations of a uniform state. -/
def rhoU (U : UVals) : ℚ :=
  U.g0 + U.g1 + U.g2 + U.g3 + U.g4 + U.g5 + U.g6 + U.g7 + U.g8 + U.g9 +
    U.g10 + U.g11 + U.g12 + U.g13 + U.g14 + U.g15 + U.g16 + U.g17 + U.g18

/-- Zeroth moment of the 7 phase-field populations of a uniform state. -/
def phaseU (U : UVals) : ℚ :=
  U.f0 + U.f1 + U.f2 + U.f3 + U.f4 + U.f5 + U.f6

/-- The 19 hydrodynamic reads contributing to the density at site `m`: the
rest population from the offset-free base array and the 18 others at
`m + current`. -/
def hydroReads (p : LBMParams) (s : LBMState) (m : ℤ) : List ℚ :=
  [s.g0 m, s.g1 (m + p.current), s.g2 (m + p.current), s.g3 (m + p.current),
   s.g4 (m + p.current), s.g5 (m + p.current), s.g6 (m + p.current),
   s.g7 (m + p.current), s.g8 (m + p.current), s.g9 (m + p.current),
   s.g10 (m + p.current), s.g11 (m + p.current), s.g12 (m + p.current),
   s.g13 (m + p.current), s.g14 (m + p.current), s.g15 (m + p.current),
   s.g16 (m + p.current), s.g17 (m + p.current), s.g18 (m + p.current)]

/-! ### Concrete instances used to exercise the theorems -/

/-- A concrete parameter set: a single-site domain with unit strides and
coincident buffer offsets. -/
def pW : LBMParams where
  nx := 0
  ny := 0
  nz := 0
  ldx := 1
  ldy := 1
  current := 0
  next := 0
  k := 1
  alpha := 1
  phi2 := 1
  gamma := 1
  itauphi := 1/2
  itauphi1 := 1/2
  ieta := 1
  itaurho := 1
  eg1 := 1
  eg2 := 1
  eg0 := 1
  egc0 := 1
  egc1 := 1
  egc2 := 1

/-- All-zero uniform values. -/
def uZero : UVals where
  phi := 0
  f0 := 0
  f1 := 0
  f2 := 0
  f3 := 0
  f4 := 0
  f5 := 0
  f6 := 0
  g0 := 0
  g1 := 0
  g2 := 0
  g3 := 0
  g4 := 0
  g5 := 0
  g6 := 0
  g7 := 0
  g8 := 0
  g9 := 0
  g10 := 0
  g11 := 0
  g12 := 0
  g13 := 0
  g14 := 0
  g15 := 0
  g16 := 0
  g17 := 0
  g18 := 0

/-- Uniform values with `phi = 1` and a unit rest population, so `rho = 1`. -/
def uOne : UVals where
  phi := 1
  f0 := 0
  f1 := 0
  f2 := 0
  f3 := 0
  f4 := 0
  f5 := 0
  f6 := 0
  g0 := 1
  g1 := 0
  g2 := 0
  g3 := 0
  g4 := 0
  g5 := 0
  g6 := 0
  g7 := 0
  g8 := 0
  g9 := 0
  g10 := 0
  g11 := 0
  g12 := 0
  g13 := 0
  g14 := 0
  g15 := 0
  g16 := 0
  g17 := 0
  g18 := 0

/-- The all-zero state. -/
def sZero : LBMState := constState uZero

/-- Constant state with `phi = 1`, `g0 = 1` (so `rho = 1`). -/
def sOne : LBMState := constState uOne

/-- A buffer that is `7` at index `99` and `0` elsewhere. -/
def spike99 : ℤ → ℚ := fun n => if n = 99 then 7 else 0

/-- A state that agrees with `sZero` everywhere except at index `99` of every
array. -/
def sSpike : LBMState where
  phi := spike99
  laplacian_phi := spike99
  grad_phi_x := spike99
  grad_phi_y := spike99
  grad_phi_z := spike99
  f0 := spike99
  f1 := spike99
  f2 := spike99
  f3 := spike99
  f4 := spike99
  f5 := spike99
  f6 := spike99
  g0 := spike99
  g1 := spike99
  g2 := spike99
  g3 := spike99
  g4 := spike99
  g5 := spike99
  g6 := spike99
  g7 := spike99
  g8 := spike99
  g9 := spike99
  g10 := spike99
  g11 := spike99
  g12 := spike99
  g13 := spike99
  g14 := spike99
  g15 := spike99
  g16 := spike99
  g17 := spike99
  g18 := spike99

/-- Parameters satisfying the equilibrium weight identities: the standard
D3Q19 weights `1/3, 1/18, 1/36` divided by a relaxation time `tau = 1`, and
complementary phase-field relaxation factors. -/
def pEq : LBMParams where
  nx := 0
  ny := 0
  nz := 0
  ldx := 1
  ldy := 1
  current := 0
  next := 0
  k := 1
  alpha := 1
  phi2 := 1
  gamma := 1
  itauphi := 1/2
  itauphi1 := 1/2
  ieta := 1
  itaurho := 0
  eg1 := 1/18
  eg2 := 1/36
  eg0 := 1/3
  egc0 := 1
  egc1 := 1
  egc2 := 1

/-- Uniform values at rest whose phase-field zeroth moment equals `phi`. -/
def uEq : UVals where
  phi := 7
  f0 := 7
  f1 := 0
  f2 := 0
  f3 := 0
  f4 := 0
  f5 := 0
  f6 := 0
  g0 := 2
  g1 := 0
  g2 := 0
  g3 := 0
  g4 := 0
  g5 := 0
  g6 := 0
  g7 := 0
  g8 := 0
  g9 := 0
  g10 := 0
  g11 := 0
  g12 := 0
  g13 := 0
  g14 := 0
  g15 := 0
  g16 := 0
  g17 := 0
  g18 := 0

/-- Parameters for which the uniform zero-velocity state is not a fixed point
of the moments: the weights do not satisfy the D3Q19 balance and the
phase-field moment does not match `phi`. -/
def pCx : LBMParams where
  nx := 0
  ny := 0
  nz := 0
  ldx := 1
  ldy := 1
  current := 0
  next := 0
  k := 0
  alpha := 0
  phi2 := 0
  gamma := 0
  itauphi := 1
  itauphi1 := 0
  ieta := 0
  itaurho := 1
  eg1 := 0
  eg2 := 0
  eg0 := 1
  egc0 := 0
  egc1 := 0
  egc2 := 0

/-- Uniform rest values (`rho = 1`, zero velocity) with `phi = 1`. -/
def uCx : UVals where
  phi := 1
  f0 := 0
  f1 := 0
  f2 := 0
  f3 := 0
  f4 := 0
  f5 := 0
  f6 := 0
  g0 := 1
  g1 := 0
  g2 := 0
  g3 := 0
  g4 := 0
  g5 := 0
  g6 := 0
  g7 := 0
  g8 := 0
  g9 := 0
  g10 := 0
  g11 := 0
  g12 := 0
  g13 := 0
  g14 := 0
  g15 := 0
  g16 := 0
  g17 := 0
  g18 := 0

end LBM

namespace LBM

/-! ## Theorems -/

/-- C2: for every in-bounds site `(i, j, z)` with `m = i + ldx*(j + ldy*z)`,
the density `rho` used throughout the update equals the sum of all 19
hydrodynamic distribution values at that site — the rest population read from
the offset-free base array `g0[m]` and the other 18 at `m + current`; `rho`
is the zeroth moment of the hydrodynamic distributions. -/
theorem C2_rho_zeroth_moment (p : LBMParams) (s : LBMState) (i j z : ℕ)
    (_hb : i ≤ p.nx ∧ j ≤ p.ny ∧ z ≤ p.nz) :
    rho p s (midx p i j z) = (hydroReads p s (midx p i j z)).sum := by
  simp only [rho, hydroReads, List.sum_cons, List.sum_nil]
  ring

/-- Witness for `C2_rho_zeroth_moment`, at the single-site domain `pW` with
the constant state `sOne`. -/
theorem C2_rho_zeroth_moment_witness :
    (0 ≤ pW.nx ∧ 0 ≤ pW.ny ∧ 0 ≤ pW.nz) ∧
      rho pW sOne (midx pW 0 0 0) = (hydroReads pW sOne (midx pW 0 0 0)).sum :=
  ⟨by decide, C2_rho_zeroth_moment pW sOne 0 0 0 (by decide)⟩

/-- C3: for every in-bounds site with `rho ≠ 0`, each velocity component is
the signed first-moment combination of the 18 non-rest populations at
`m + current`, plus the half-step force correction `0.5 * f_axis` added
before the division, all divided by `rho`. -/
theorem C3_velocity_first_moment (p : LBMParams) (s : LBMState) (i j z : ℕ)
    (_hb : i ≤ p.nx ∧ j ≤ p.ny ∧ z ≤ p.nz)
    (_hrho : rho p s (midx p i j z) ≠ 0) :
    ux p s (midx p i j z) =
      (s.g1 (midx p i j z + p.current) - s.g2 (midx p i j z + p.current) +
        s.g7 (midx p i j z + p.current) - s.g8 (midx p i j z + p.current) +
        s.g9 (midx p i j z + p.current) - s.g10 (midx p i j z + p.current) +
        s.g11 (midx p i j z + p.current) - s.g12 (midx p i j z + p.current) +
        s.g13 (midx p i j z + p.current) - s.g14 (midx p i j z + p.current) +
        1/2 * fx p s (midx p i j z)) / rho p s (midx p i j z) ∧
    uy p s (midx p i j z) =
      (s.g3 (midx p i j z + p.current) - s.g4 (midx p i j z + p.current) +
        s.g7 (midx p i j z + p.current) - s.g8 (midx p i j z + p.current) -
        s.g9 (midx p i j z + p.current) + s.g10 (midx p i j z + p.current) +
        s.g15 (midx p i j z + p.current) - s.g16 (midx p i j z + p.current) +
        s.g17 (midx p i j z + p.current) - s.g18 (midx p i j z + p.current) +
        1/2 * fy p s (midx p i j z)) / rho p s (midx p i j z) ∧
    uz p s (midx p i j z) =
      (s.g5 (midx p i j z + p.current) - s.g6 (midx p i j z + p.current) +
        s.g11 (midx p i j z + p.current) - s.g12 (midx p i j z + p.current) -
        s.g13 (midx p i j z + p.current) + s.g14 (midx p i j z + p.current) +
        s.g15 (midx p i j z + p.current) - s.g16 (midx p i j z + p.current) -
        s.g17 (midx p i j z + p.current) + s.g18 (midx p i j z + p.current) +
        1/2 * fz p s (midx p i j z)) / rho p s (midx p i j z) := by
  refine ⟨?_, ?_, ?_⟩ <;> simp only [ux, uy, uz, irho, mul_one_div]

/-- Witness for `C3_velocity_first_moment`: at `pW`, `sOne` the density is
`1 ≠ 0`. -/
theorem C3_velocity_first_moment_witness :
    ((0 ≤ pW.nx ∧ 0 ≤ pW.ny ∧ 0 ≤ pW.nz) ∧
        rho pW sOne (midx pW 0 0 0) ≠ 0) ∧
      ux pW sOne (midx pW 0 0 0) =
        (sOne.g1 (midx pW 0 0 0 + pW.current) -
          sOne.g2 (midx pW 0 0 0 + pW.current) +
          sOne.g7 (midx pW 0 0 0 + pW.current) -
          sOne.g8 (midx pW 0 0 0 + pW.current) +
          sOne.g9 (midx pW 0 0 0 + pW.current) -
          sOne.g10 (midx pW 0 0 0 + pW.current) +
          sOne.g11 (midx pW 0 0 0 + pW.current) -
          sOne.g12 (midx pW 0 0 0 + pW.current) +
          sOne.g13 (midx pW 0 0 0 + pW.current) -
          sOne.g14 (midx pW 0 0 0 + pW.current) +
          1/2 * fx pW sOne (midx pW 0 0 0)) / rho pW sOne (midx pW 0 0 0) :=
  ⟨⟨by decide, by simp [rho, sOne, constState, uOne, pW, midx]⟩,
    (C3_velocity_first_moment pW sOne 0 0 0 (by decide)
      (by simp [rho, sOne, constState, uOne, pW, midx])).1⟩

/-- C4: for every in-bounds site, the chemical potential is
`mu = alpha * phi[m] * (phi[m]^2 - phi2) - k * laplacian_phi[m]` and the
interfacial body force components are `mu` times the corresponding gradient
component. -/
theorem C4_chemical_potential_force (p : LBMParams) (s : LBMState)
    (i j z : ℕ) (_hb : i ≤ p.nx ∧ j ≤ p.ny ∧ z ≤ p.nz) :
    mu_phi p s (midx p i j z) =
      p.alpha * s.phi (midx p i j z) * (s.phi (midx p i j z) ^ 2 - p.phi2) -
        p.k * s.laplacian_phi (midx p i j z) ∧
    fx p s (midx p i j z) =
      mu_phi p s (midx p i j z) * s.grad_phi_x (midx p i j z) ∧
    fy p s (midx p i j z) =
      mu_phi p s (midx p i j z) * s.grad_phi_y (midx p i j z) ∧
    fz p s (midx p i j z) =
      mu_phi p s (midx p i j z) * s.grad_phi_z (midx p i j z) :=
  ⟨by rw [mu_phi, pow_two], rfl, rfl, rfl⟩

/-- Witness for `C4_chemical_potential_force` at `pW`, `sOne`. -/
theorem C4_chemical_potential_force_witness :
    (0 ≤ pW.nx ∧ 0 ≤ pW.ny ∧ 0 ≤ pW.nz) ∧
      mu_phi pW sOne (midx pW 0 0 0) =
        pW.alpha * sOne.phi (midx pW 0 0 0) *
            (sOne.phi (midx pW 0 0 0) ^ 2 - pW.phi2) -
          pW.k * sOne.laplacian_phi (midx pW 0 0 0) :=
  ⟨by decide, (C4_chemical_potential_force pW sOne 0 0 0 (by decide)).1⟩

/-- C1: for every in-bounds site with `m = i + ldx*(j + ldy*z)`, each of the
18 non-rest hydrodynamic directions writes its post-collision value —
`itaurho` times the old value at `m + current`, plus `tmp1 + tmp2` or
`tmp1 - tmp2` — to the neighbor index `m + next + Δ`, where `Δ` is `+1` or
`-1` for the x pair, `+ldx` or `-ldx` for the y pair, `+ldx*ldy` or
`-ldx*ldy` for the z pair, and the eight combinations of these for the
diagonal pairs. -/
theorem C1_streaming_displacements (p : LBMParams) (grav : ℚ) (s : LBMState)
    (i j z : ℕ) (hb : i ≤ p.nx ∧ j ≤ p.ny ∧ z ≤ p.nz) :
    (kernelSite p grav s i j z).g1 (midx p i j z + p.next + 1) =
      p.itaurho * s.g1 (midx p i j z + p.current) +
        tmp1x p s (midx p i j z) + tmp2x p s (midx p i j z) ∧
    (kernelSite p grav s i j z).g2 (midx p i j z + p.next - 1) =
      p.itaurho * s.g2 (midx p i j z + p.current) +
        tmp1x p s (midx p i j z) - tmp2x p s (midx p i j z) ∧
    (kernelSite p grav s i j z).g3 (midx p i j z + p.next + p.ldx) =
      p.itaurho * s.g3 (midx p i j z + p.current) +
        tmp1y p s (midx p i j z) + tmp2y p s (midx p i j z) ∧
    (kernelSite p grav s i j z).g4 (midx p i j z + p.next - p.ldx) =
      p.itaurho * s.g4 (midx p i j z + p.current) +
        tmp1y p s (midx p i j z) - tmp2y p s (midx p i j z) ∧
    (kernelSite p grav s i j z).g5 (midx p i j z + p.next + p.ldx * p.ldy) =
      p.itaurho * s.g5 (midx p i j z + p.current) +
        tmp1z p s (midx p i j z) + tmp2z p s (midx p i j z) ∧
    (kernelSite p grav s i j z).g6 (midx p i j z + p.next - p.ldx * p.ldy) =
      p.itaurho * s.g6 (midx p i j z + p.current) +
        tmp1z p s (midx p i j z) - tmp2z p s (midx p i j z) ∧
    (kernelSite p grav s i j z).g7 (midx p i j z + p.next + 1 + p.ldx) =
      p.itaurho * s.g7 (midx p i j z + p.current) +
        tmp1xy p s (midx p i j z) + tmp2xy p s (midx p i j z) ∧
    (kernelSite p grav s i j z).g8 (midx p i j z + p.next - 1 - p.ldx) =
      p.itaurho * s.g8 (midx p i j z + p.current) +
        tmp1xy p s (midx p i j z) - tmp2xy p s (midx p i j z) ∧
    (kernelSite p grav s i j z).g9 (midx p i j z + p.next + 1 - p.ldx) =
      p.itaurho * s.g9 (midx p i j z + p.current) +
        tmp1xmy p s (midx p i j z) + tmp2xmy p s (midx p i j z) ∧
    (kernelSite p grav s i j z).g10 (midx p i j z + p.next - 1 + p.ldx) =
      p.itaurho * s.g10 (midx p i j z + p.current) +
        tmp1xmy p s (midx p i j z) - tmp2xmy p s (midx p i j z) ∧
    (kernelSite p grav s i j z).g11
        (midx p i j z + p.next + 1 + p.ldx * p.ldy) =
      p.itaurho * s.g11 (midx p i j z + p.current) +
        tmp1xz p s (midx p i j z) + tmp2xz p s (midx p i j z) ∧
    (kernelSite p grav s i j z).g12
        (midx p i j z + p.next - 1 - p.ldx * p.ldy) =
      p.itaurho * s.g12 (midx p i j z + p.current) +
        tmp1xz p s (midx p i j z) - tmp2xz p s (midx p i j z) ∧
    (kernelSite p grav s i j z).g13
        (midx p i j z + p.next + 1 - p.ldx * p.ldy) =
      p.itaurho * s.g13 (midx p i j z + p.current) +
        tmp1xmz p s (midx p i j z) + tmp2xmz p s (midx p i j z) ∧
    (kernelSite p grav s i j z).g14
        (midx p i j z + p.next - 1 + p.ldx * p.ldy) =
      p.itaurho * s.g14 (midx p i j z + p.current) +
        tmp1xmz p s (midx p i j z) - tmp2xmz p s (midx p i j z) ∧
    (kernelSite p grav s i j z).g15
        (midx p i j z + p.next + p.ldx + p.ldx * p.ldy) =
      p.itaurho * s.g15 (midx p i j z + p.current) +
        tmp1yz p s (midx p i j z) + tmp2yz p s (midx p i j z) ∧
    (kernelSite p grav s i j z).g16
        (midx p i j z + p.next - p.ldx - p.ldx * p.ldy) =
      p.itaurho * s.g16 (midx p i j z + p.current) +
        tmp1yz p s (midx p i j z) - tmp2yz p s (midx p i j z) ∧
    (kernelSite p grav s i j z).g17
        (midx p i j z + p.next + p.ldx - p.ldx * p.ldy) =
      p.itaurho * s.g17 (midx p i j z + p.current) +
        tmp1ymz p s (midx p i j z) + tmp2ymz p s (midx p i j z) ∧
    (kernelSite p grav s i j z).g18
        (midx p i j z + p.next - p.ldx + p.ldx * p.ldy) =
      p.itaurho * s.g18 (midx p i j z + p.current) +
        tmp1ymz p s (midx p i j z) - tmp2ymz p s (midx p i j z) := by
  obtain ⟨h1, h2, h3⟩ := hb
  simp [kernelSite, h1, h2, h3, g1out, g2out, g3out, g4out, g5out, g6out,
    g7out, g8out, g9out, g10out, g11out, g12out, g13out, g14out, g15out,
    g16out, g17out, g18out]

/-- Witness for `C1_streaming_displacements` at the single-site domain `pW`
with the all-zero state. -/
theorem C1_streaming_displacements_witness :
    (0 ≤ pW.nx ∧ 0 ≤ pW.ny ∧ 0 ≤ pW.nz) ∧
      (kernelSite pW 0 sZero 0 0 0).g1 (midx pW 0 0 0 + pW.next + 1) =
        pW.itaurho * sZero.g1 (midx pW 0 0 0 + pW.current) +
          tmp1x pW sZero (midx pW 0 0 0) + tmp2x pW sZero (midx pW 0 0 0) :=
  ⟨by decide, (C1_streaming_displacements pW 0 sZero 0 0 0 (by decide)).1⟩

/-- C5: for every in-bounds site, the phase-field update writes exactly
`f0[m] = itauphi1*f0[m] - 3*gamma*mu*itauphi + itauphi*phi` to the
offset-free base slot, writes the opposite-direction pairs
`itauphi1*f_old + af ± cf*u_axis` in place at `m + current` with no
streaming offset, and writes no other phase-field slot. -/
theorem C5_phase_field_in_place (p : LBMParams) (grav : ℚ) (s : LBMState)
    (i j z : ℕ) (hb : i ≤ p.nx ∧ j ≤ p.ny ∧ z ≤ p.nz) :
    (kernelSite p grav s i j z).f0 (midx p i j z) =
      p.itauphi1 * s.f0 (midx p i j z) +
        -3 * p.gamma * mu_phi p s (midx p i j z) * p.itauphi +
        p.itauphi * s.phi (midx p i j z) ∧
    (kernelSite p grav s i j z).f1 (midx p i j z + p.current) =
      p.itauphi1 * s.f1 (midx p i j z + p.current) + af p s (midx p i j z) +
        cf p s (midx p i j z) * ux p s (midx p i j z) ∧
    (kernelSite p grav s i j z).f2 (midx p i j z + p.current) =
      p.itauphi1 * s.f2 (midx p i j z + p.current) + af p s (midx p i j z) -
        cf p s (midx p i j z) * ux p s (midx p i j z) ∧
    (kernelSite p grav s i j z).f3 (midx p i j z + p.current) =
      p.itauphi1 * s.f3 (midx p i j z + p.current) + af p s (midx p i j z) +
        cf p s (midx p i j z) * uy p s (midx p i j z) ∧
    (kernelSite p grav s i j z).f4 (midx p i j z + p.current) =
      p.itauphi1 * s.f4 (midx p i j z + p.current) + af p s (midx p i j z) -
        cf p s (midx p i j z) * uy p s (midx p i j z) ∧
    (kernelSite p grav s i j z).f5 (midx p i j z + p.current) =
      p.itauphi1 * s.f5 (midx p i j z + p.current) + af p s (midx p i j z) +
        cf p s (midx p i j z) * uz p s (midx p i j z) ∧
    (kernelSite p grav s i j z).f6 (midx p i j z + p.current) =
      p.itauphi1 * s.f6 (midx p i j z + p.current) + af p s (midx p i j z) -
        cf p s (midx p i j z) * uz p s (midx p i j z) ∧
    (∀ n : ℤ, n ≠ midx p i j z →
      (kernelSite p grav s i j z).f0 n = s.f0 n) ∧
    (∀ n : ℤ, n ≠ midx p i j z + p.current →
      (kernelSite p grav s i j z).f1 n = s.f1 n) ∧
    (∀ n : ℤ, n ≠ midx p i j z + p.current →
      (kernelSite p grav s i j z).f2 n = s.f2 n) ∧
    (∀ n : ℤ, n ≠ midx p i j z + p.current →
      (kernelSite p grav s i j z).f3 n = s.f3 n) ∧
    (∀ n : ℤ, n ≠ midx p i j z + p.current →
      (kernelSite p grav s i j z).f4 n = s.f4 n) ∧
    (∀ n : ℤ, n ≠ midx p i j z + p.current →
      (kernelSite p grav s i j z).f5 n = s.f5 n) ∧
    (∀ n : ℤ, n ≠ midx p i j z + p.current →
      (kernelSite p grav s i j z).f6 n = s.f6 n) := by
  obtain ⟨h1, h2, h3⟩ := hb
  simp only [kernelSite, h1, h2, h3, and_self, if_true, ite_true]
  refine ⟨?_, ?_, ?_, ?_, ?_, ?_, ?_, ?_, ?_, ?_, ?_, ?_, ?_, ?_⟩
  · simp [f0out]
  · simp [f1out]
  · simp [f2out]
  · simp [f3out]
  · simp [f4out]
  · simp [f5out]
  · simp [f6out]
  all_goals intro n hn
  all_goals simp [Function.update_noteq hn]

/-- Witness for `C5_phase_field_in_place` at `pW` with the all-zero state. -/
theorem C5_phase_field_in_place_witness :
    (0 ≤ pW.nx ∧ 0 ≤ pW.ny ∧ 0 ≤ pW.nz) ∧
      (kernelSite pW 0 sZero 0 0 0).f0 (midx pW 0 0 0) =
        pW.itauphi1 * sZero.f0 (midx pW 0 0 0) +
          -3 * pW.gamma * mu_phi pW sZero (midx pW 0 0 0) * pW.itauphi +
          pW.itauphi * sZero.phi (midx pW 0 0 0) :=
  ⟨by decide, (C5_phase_field_in_place pW 0 sZero 0 0 0 (by decide)).1⟩

/-- C6: a thread whose indices fail the bounds guard (`i > nx` or `j > ny` or
`z > nz`) performs no writes and has no side effects: the whole state —
both distribution families and all scalar fields — is returned unchanged. -/
theorem C6_out_of_bounds_no_writes (p : LBMParams) (grav : ℚ) (s : LBMState)
    (i j z : ℕ) (h : p.nx < i ∨ p.ny < j ∨ p.nz < z) :
    kernelSite p grav s i j z = s := by
  simp only [kernelSite]
  rw [if_neg (by omega : ¬(i ≤ p.nx ∧ j ≤ p.ny ∧ z ≤ p.nz))]

/-- Witness for `C6_out_of_bounds_no_writes`: thread `(1, 0, 0)` on the
single-site domain `pW` leaves `sZero` unchanged. -/
theorem C6_out_of_bounds_no_writes_witness :
    (pW.nx < 1 ∨ pW.ny < 0 ∨ pW.nz < 0) ∧
      kernelSite pW 0 sZero 1 0 0 = sZero :=
  ⟨by decide, C6_out_of_bounds_no_writes pW 0 sZero 1 0 0 (by decide)⟩

/-- Frame fact for one thread: a buffer index that is none of the 26 write
slots of site `(i, j, z)` is untouched by that thread, in every distribution
array. -/
theorem distAt_kernelSite (p : LBMParams) (grav : ℚ) (s : LBMState)
    (i j z : ℕ) (n : ℤ) (h : ¬ siteWrites p i j z n) :
    distAt (kernelSite p grav s i j z) n = distAt s n := by
  by_cases hb : i ≤ p.nx ∧ j ≤ p.ny ∧ z ≤ p.nz
  · simp only [siteWrites, not_or] at h
    obtain ⟨e1, e2, e3, e4, e5, e6, e7, e8, e9, e10, e11, e12, e13, e14, e15,
      e16, e17, e18, e19, e20⟩ := h
    obtain ⟨h1, h2, h3⟩ := hb
    simp [distAt, kernelSite, h1, h2, h3, Function.update_apply,
      e1, e2, e3, e4, e5, e6, e7, e8, e9, e10, e11, e12, e13, e14, e15,
      e16, e17, e18, e19, e20]
  · simp [kernelSite, hb]

/-- Frame fact for a sequence of threads, none of which writes index `n`. -/
theorem distAt_foldl (p : LBMParams) (grav : ℚ) (n : ℤ) :
    ∀ (L : List (ℕ × ℕ × ℕ)) (s : LBMState),
      (∀ t ∈ L, ¬ siteWrites p t.1 t.2.1 t.2.2 n) →
      distAt (L.foldl (fun st t => kernelSite p grav st t.1 t.2.1 t.2.2) s) n
        = distAt s n := by
  intro L
  induction L with
  | nil => intro s _; rfl
  | cons a L ih =>
    intro s h
    rw [List.foldl_cons,
      ih _ (fun t ht => h t (List.mem_cons_of_mem a ht))]
    exact distAt_kernelSite p grav s a.1 a.2.1 a.2.2 n
      (h a (List.mem_cons_self a L))

/-- C7: after one full kernel pass over all threads, no buffer index outside
the set of slots addressed by the in-bounds sites
`[0, nx] × [0, ny] × [0, nz]` has been mutated in any distribution array. -/
theorem C7_frame_full_pass (p : LBMParams) (grav : ℚ) (s : LBMState) (n : ℤ)
    (h : ∀ i j z : ℕ, i ≤ p.nx → j ≤ p.ny → z ≤ p.nz →
      ¬ siteWrites p i j z n) :
    distAt (kernelPass p grav s) n = distAt s n := by
  refine distAt_foldl p grav n (siteList p) s ?_
  intro t ht
  have hmem : t.1 ≤ p.nx ∧ t.2.1 ≤ p.ny ∧ t.2.2 ≤ p.nz := by
    simp only [siteList, List.mem_flatMap, List.mem_map, List.mem_range,
      Nat.lt_succ_iff] at ht
    obtain ⟨i, hi, j, hj, z, hz, rfl⟩ := ht
    exact ⟨hi, hj, hz⟩
  exact h t.1 t.2.1 t.2.2 hmem.1 hmem.2.1 hmem.2.2

/-- Witness for `C7_frame_full_pass`: on the single-site domain `pW`
(strides 1, offsets 0) index `5` is outside every site's write set and is
untouched by a full pass. -/
theorem C7_frame_full_pass_witness :
    (∀ i j z : ℕ, i ≤ pW.nx → j ≤ pW.ny → z ≤ pW.nz →
        ¬ siteWrites pW i j z 5) ∧
      distAt (kernelPass pW 0 sZero) 5 = distAt sZero 5 := by
  have hout : ∀ i j z : ℕ, i ≤ pW.nx → j ≤ pW.ny → z ≤ pW.nz →
      ¬ siteWrites pW i j z 5 := by
    intro i j z hi hj hz
    have hi0 : i = 0 := Nat.le_zero.mp hi
    have hj0 : j = 0 := Nat.le_zero.mp hj
    have hz0 : z = 0 := Nat.le_zero.mp hz
    subst hi0; subst hj0; subst hz0
    decide
  exact ⟨hout, C7_frame_full_pass pW 0 sZero 5 hout⟩

/-- C10: the values a site's update writes are a function only of the 31
local inputs `phi[m]`, `laplacian_phi[m]`, the three gradient components at
`m`, `f0[m]`, `f1..f6[m+current]`, `g0[m]` and `g1..g18[m+current]` with
`m = i + ldx*(j + ldy*z)`: two states that agree on these produce identical
written values — no neighbor or next-offset slot is ever read. -/
theorem C10_locality (p : LBMParams) (s s' : LBMState) (i j z : ℕ)
    (h : s.phi (midx p i j z) = s'.phi (midx p i j z) ∧
      s.laplacian_phi (midx p i j z) = s'.laplacian_phi (midx p i j z) ∧
      s.grad_phi_x (midx p i j z) = s'.grad_phi_x (midx p i j z) ∧
      s.grad_phi_y (midx p i j z) = s'.grad_phi_y (midx p i j z) ∧
      s.grad_phi_z (midx p i j z) = s'.grad_phi_z (midx p i j z) ∧
      s.f0 (midx p i j z) = s'.f0 (midx p i j z) ∧
      s.f1 (midx p i j z + p.current) = s'.f1 (midx p i j z + p.current) ∧
      s.f2 (midx p i j z + p.current) = s'.f2 (midx p i j z + p.current) ∧
      s.f3 (midx p i j z + p.current) = s'.f3 (midx p i j z + p.current) ∧
      s.f4 (midx p i j z + p.current) = s'.f4 (midx p i j z + p.current) ∧
      s.f5 (midx p i j z + p.current) = s'.f5 (midx p i j z + p.current) ∧
      s.f6 (midx p i j z + p.current) = s'.f6 (midx p i j z + p.current) ∧
      s.g0 (midx p i j z) = s'.g0 (midx p i j z) ∧
      s.g1 (midx p i j z + p.current) = s'.g1 (midx p i j z + p.current) ∧
      s.g2 (midx p i j z + p.current) = s'.g2 (midx p i j z + p.current) ∧
      s.g3 (midx p i j z + p.current) = s'.g3 (midx p i j z + p.current) ∧
      s.g4 (midx p i j z + p.current) = s'.g4 (midx p i j z + p.current) ∧
      s.g5 (midx p i j z + p.current) = s'.g5 (midx p i j z + p.current) ∧
      s.g6 (midx p i j z + p.current) = s'.g6 (midx p i j z + p.current) ∧
      s.g7 (midx p i j z + p.current) = s'.g7 (midx p i j z + p.current) ∧
      s.g8 (midx p i j z + p.current) = s'.g8 (midx p i j z + p.current) ∧
      s.g9 (midx p i j z + p.current) = s'.g9 (midx p i j z + p.current) ∧
      s.g10 (midx p i j z + p.current) = s'.g10 (midx p i j z + p.current) ∧
      s.g11 (midx p i j z + p.current) = s'.g11 (midx p i j z + p.current) ∧
      s.g12 (midx p i j z + p.current) = s'.g12 (midx p i j z + p.current) ∧
      s.g13 (midx p i j z + p.current) = s'.g13 (midx p i j z + p.current) ∧
      s.g14 (midx p i j z + p.current) = s'.g14 (midx p i j z + p.current) ∧
      s.g15 (midx p i j z + p.current) = s'.g15 (midx p i j z + p.current) ∧
      s.g16 (midx p i j z + p.current) = s'.g16 (midx p i j z + p.current) ∧
      s.g17 (midx p i j z + p.current) = s'.g17 (midx p i j z + p.current) ∧
      s.g18 (midx p i j z + p.current) = s'.g18 (midx p i j z + p.current)) :
    writtenVals p s (midx p i j z) = writtenVals p s' (midx p i j z) := by
  obtain ⟨hphi, hlap, hgx, hgy, hgz, hf0, hf1, hf2, hf3, hf4, hf5, hf6, hg0,
    hg1, hg2, hg3, hg4, hg5, hg6, hg7, hg8, hg9, hg10, hg11, hg12, hg13,
    hg14, hg15, hg16, hg17, hg18⟩ := h
  simp only [writtenVals, f0out, f1out, f2out, f3out, f4out, f5out, f6out,
    g0out, g1out, g2out, g3out, g4out, g5out, g6out, g7out, g8out, g9out,
    g10out, g11out, g12out, g13out, g14out, g15out, g16out, g17out, g18out,
    tmp1x, tmp2x, tmp1y, tmp2y, tmp1z, tmp2z, tmp1xy, tmp2xy, tmp1xmy,
    tmp2xmy, tmp1xz, tmp2xz, tmp1xmz, tmp2xmz, tmp1yz, tmp2yz, tmp1ymz,
    tmp2ymz, af, cf, ag, vv, uf, ux, uy, uz, fx, fy, fz, irho, rho, mu_phi,
    hphi, hlap, hgx, hgy, hgz, hf0, hf1, hf2, hf3, hf4, hf5, hf6, hg0,
    hg1, hg2, hg3, hg4, hg5, hg6, hg7, hg8, hg9, hg10, hg11, hg12, hg13,
    hg14, hg15, hg16, hg17, hg18]

/-- Witness for `C10_locality`: `sZero` and `sSpike` agree at the local
slots of site `(0, 0, 0)` but differ at index `99` of every array, and the
written values coincide. -/
theorem C10_locality_witness :
    (sZero.phi (midx pW 0 0 0) = sSpike.phi (midx pW 0 0 0) ∧
      sZero.laplacian_phi (midx pW 0 0 0) =
        sSpike.laplacian_phi (midx pW 0 0 0) ∧
      sZero.grad_phi_x (midx pW 0 0 0) = sSpike.grad_phi_x (midx pW 0 0 0) ∧
      sZero.grad_phi_y (midx pW 0 0 0) = sSpike.grad_phi_y (midx pW 0 0 0) ∧
      sZero.grad_phi_z (midx pW 0 0 0) = sSpike.grad_phi_z (midx pW 0 0 0) ∧
      sZero.f0 (midx pW 0 0 0) = sSpike.f0 (midx pW 0 0 0) ∧
      sZero.f1 (midx pW 0 0 0 + pW.current) =
        sSpike.f1 (midx pW 0 0 0 + pW.current) ∧
      sZero.f2 (midx pW 0 0 0 + pW.current) =
        sSpike.f2 (midx pW 0 0 0 + pW.current) ∧
      sZero.f3 (midx pW 0 0 0 + pW.current) =
        sSpike.f3 (midx pW 0 0 0 + pW.current) ∧
      sZero.f4 (midx pW 0 0 0 + pW.current) =
        sSpike.f4 (midx pW 0 0 0 + pW.current) ∧
      sZero.f5 (midx pW 0 0 0 + pW.current) =
        sSpike.f5 (midx pW 0 0 0 + pW.current) ∧
      sZero.f6 (midx pW 0 0 0 + pW.current) =
        sSpike.f6 (midx pW 0 0 0 + pW.current) ∧
      sZero.g0 (midx pW 0 0 0) = sSpike.g0 (midx pW 0 0 0) ∧
      sZero.g1 (midx pW 0 0 0 + pW.current) =
        sSpike.g1 (midx pW 0 0 0 + pW.current) ∧
      sZero.g2 (midx pW 0 0 0 + pW.current) =
        sSpike.g2 (midx pW 0 0 0 + pW.current) ∧
      sZero.g3 (midx pW 0 0 0 + pW.current) =
        sSpike.g3 (midx pW 0 0 0 + pW.current) ∧
      sZero.g4 (midx pW 0 0 0 + pW.current) =
        sSpike.g4 (midx pW 0 0 0 + pW.current) ∧
      sZero.g5 (midx pW 0 0 0 + pW.current) =
        sSpike.g5 (midx pW 0 0 0 + pW.current) ∧
      sZero.g6 (midx pW 0 0 0 + pW.current) =
        sSpike.g6 (midx pW 0 0 0 + pW.current) ∧
      sZero.g7 (midx pW 0 0 0 + pW.current) =
        sSpike.g7 (midx pW 0 0 0 + pW.current) ∧
      sZero.g8 (midx pW 0 0 0 + pW.current) =
        sSpike.g8 (midx pW 0 0 0 + pW.current) ∧
      sZero.g9 (midx pW 0 0 0 + pW.current) =
        sSpike.g9 (midx pW 0 0 0 + pW.current) ∧
      sZero.g10 (midx pW 0 0 0 + pW.current) =
        sSpike.g10 (midx pW 0 0 0 + pW.current) ∧
      sZero.g11 (midx pW 0 0 0 + pW.current) =
        sSpike.g11 (midx pW 0 0 0 + pW.current) ∧
      sZero.g12 (midx pW 0 0 0 + pW.current) =
        sSpike.g12 (midx pW 0 0 0 + pW.current) ∧
      sZero.g13 (midx pW 0 0 0 + pW.current) =
        sSpike.g13 (midx pW 0 0 0 + pW.current) ∧
      sZero.g14 (midx pW 0 0 0 + pW.current) =
        sSpike.g14 (midx pW 0 0 0 + pW.current) ∧
      sZero.g15 (midx pW 0 0 0 + pW.current) =
        sSpike.g15 (midx pW 0 0 0 + pW.current) ∧
      sZero.g16 (midx pW 0 0 0 + pW.current) =
        sSpike.g16 (midx pW 0 0 0 + pW.current) ∧
      sZero.g17 (midx pW 0 0 0 + pW.current) =
        sSpike.g17 (midx pW 0 0 0 + pW.current) ∧
      sZero.g18 (midx pW 0 0 0 + pW.current) =
        sSpike.g18 (midx pW 0 0 0 + pW.current)) ∧
      writtenVals pW sZero (midx pW 0 0 0) =
        writtenVals pW sSpike (midx pW 0 0 0) :=
  ⟨by simp [sZero, sSpike, constState, uZero, spike99, pW, midx],
    C10_locality pW sZero sSpike 0 0 0
      (by simp [sZero, sSpike, constState, uZero, spike99, pW, midx])⟩

/-- On a uniform state the x-force vanishes (the gradient of `phi` is 0). -/
theorem fx_const (p : LBMParams) (U : UVals) (m : ℤ) :
    fx p (constState U) m = 0 := by
  simp [fx, constState]

/-- On a uniform state the y-force vanishes. -/
theorem fy_const (p : LBMParams) (U : UVals) (m : ℤ) :
    fy p (constState U) m = 0 := by
  simp [fy, constState]

/-- On a uniform state the z-force vanishes. -/
theorem fz_const (p : LBMParams) (U : UVals) (m : ℤ) :
    fz p (constState U) m = 0 := by
  simp [fz, constState]

/-- On a uniform state the recovered density is the zeroth moment of the
uniform values, at every site. -/
theorem rho_const (p : LBMParams) (U : UVals) (m : ℤ) :
    rho p (constState U) m = rhoU U := rfl

/-- On a uniform state the recovered x-velocity is the x-moment of the
uniform values over their zeroth moment. -/
theorem ux_const (p : LBMParams) (U : UVals) (m : ℤ) :
    ux p (constState U) m =
      (U.g1 - U.g2 + U.g7 - U.g8 + U.g9 - U.g10 + U.g11 - U.g12 + U.g13 -
        U.g14) * (1 / rhoU U) := by
  simp [ux, irho, fx, rho, rhoU, constState]

/-- On a uniform state the recovered y-velocity is the y-moment of the
uniform values over their zeroth moment. -/
theorem uy_const (p : LBMParams) (U : UVals) (m : ℤ) :
    uy p (constState U) m =
      (U.g3 - U.g4 + U.g7 - U.g8 - U.g9 + U.g10 + U.g15 - U.g16 + U.g17 -
        U.g18) * (1 / rhoU U) := by
  simp [uy, irho, fy, rho, rhoU, constState]

/-- On a uniform state the recovered z-velocity is the z-moment of the
uniform values over their zeroth moment. -/
theorem uz_const (p : LBMParams) (U : UVals) (m : ℤ) :
    uz p (constState U) m =
      (U.g5 - U.g6 + U.g11 - U.g12 - U.g13 + U.g14 + U.g15 - U.g16 - U.g17 +
        U.g18) * (1 / rhoU U) := by
  simp [uz, irho, fz, rho, rhoU, constState]

/-- Sum of the 19 hydrodynamic post-collision values at a zero-velocity,
zero-force site: with complementary relaxation
(`itaurho = 1 - (eg0 + 6 eg1 + 12 eg2)`) and balanced rest weight
(`eg0 = 3 eg1 + 6 eg2`) the collision conserves the zeroth moment. -/
theorem hydroOutSum (p : LBMParams) (s : LBMState) (m : ℤ)
    (hux : ux p s m = 0) (huy : uy p s m = 0) (huz : uz p s m = 0)
    (hfx : fx p s m = 0) (hfy : fy p s m = 0) (hfz : fz p s m = 0)
    (h2 : p.itaurho = 1 - (p.eg0 + 6 * p.eg1 + 12 * p.eg2))
    (h3 : p.eg0 = 3 * p.eg1 + 6 * p.eg2) :
    g0out p s m + g1out p s m + g2out p s m + g3out p s m + g4out p s m +
      g5out p s m + g6out p s m + g7out p s m + g8out p s m + g9out p s m +
      g10out p s m + g11out p s m + g12out p s m + g13out p s m +
      g14out p s m + g15out p s m + g16out p s m + g17out p s m +
      g18out p s m = rho p s m := by
  simp only [g0out, g1out, g2out, g3out, g4out, g5out, g6out, g7out, g8out,
    g9out, g10out, g11out, g12out, g13out, g14out, g15out, g16out, g17out,
    g18out, tmp1x, tmp2x, tmp1y, tmp2y, tmp1z, tmp2z, tmp1xy, tmp2xy,
    tmp1xmy, tmp2xmy, tmp1xz, tmp2xz, tmp1xmz, tmp2xmz, tmp1yz, tmp2yz,
    tmp1ymz, tmp2ymz, ag, vv, uf, hux, huy, huz, hfx, hfy, hfz, h2, h3, rho]
  ring

/-- Sum of the 7 phase-field post-collision values: the source terms cancel,
leaving a pure relaxation of the zeroth moment toward `phi`. -/
theorem phaseOutSum (p : LBMParams) (s : LBMState) (m : ℤ) :
    f0out p s m + f1out p s m + f2out p s m + f3out p s m + f4out p s m +
      f5out p s m + f6out p s m =
      p.itauphi1 * (s.f0 m + s.f1 (m + p.current) + s.f2 (m + p.current) +
        s.f3 (m + p.current) + s.f4 (m + p.current) + s.f5 (m + p.current) +
        s.f6 (m + p.current)) + p.itauphi * s.phi m := by
  simp only [f0out, f1out, f2out, f3out, f4out, f5out, f6out, af, cf]
  ring

/-- At a zero-velocity, zero-force site the x-moment of the post-collision
values is `itaurho` times the old x-moment. -/
theorem momxOut (p : LBMParams) (s : LBMState) (m : ℤ)
    (hux : ux p s m = 0) (huy : uy p s m = 0) (huz : uz p s m = 0)
    (hfx : fx p s m = 0) (hfy : fy p s m = 0) (hfz : fz p s m = 0) :
    g1out p s m - g2out p s m + g7out p s m - g8out p s m + g9out p s m -
      g10out p s m + g11out p s m - g12out p s m + g13out p s m -
      g14out p s m =
      p.itaurho * (s.g1 (m + p.current) - s.g2 (m + p.current) +
        s.g7 (m + p.current) - s.g8 (m + p.current) + s.g9 (m + p.current) -
        s.g10 (m + p.current) + s.g11 (m + p.current) -
        s.g12 (m + p.current) + s.g13 (m + p.current) -
        s.g14 (m + p.current)) := by
  simp only [g1out, g2out, g7out, g8out, g9out, g10out, g11out, g12out,
    g13out, g14out, tmp2x, tmp2xy, tmp2xmy, tmp2xz, tmp2xmz,
    hux, huy, huz, hfx, hfy, hfz]
  ring

/-- At a zero-velocity, zero-force site the y-moment of the post-collision
values is `itaurho` times the old y-moment. -/
theorem momyOut (p : LBMParams) (s : LBMState) (m : ℤ)
    (hux : ux p s m = 0) (huy : uy p s m = 0) (huz : uz p s m = 0)
    (hfx : fx p s m = 0) (hfy : fy p s m = 0) (hfz : fz p s m = 0) :
    g3out p s m - g4out p s m + g7out p s m - g8out p s m - g9out p s m +
      g10out p s m + g15out p s m - g16out p s m + g17out p s m -
      g18out p s m =
      p.itaurho * (s.g3 (m + p.current) - s.g4 (m + p.current) +
        s.g7 (m + p.current) - s.g8 (m + p.current) - s.g9 (m + p.current) +
        s.g10 (m + p.current) + s.g15 (m + p.current) -
        s.g16 (m + p.current) + s.g17 (m + p.current) -
        s.g18 (m + p.current)) := by
  simp only [g3out, g4out, g7out, g8out, g9out, g10out, g15out, g16out,
    g17out, g18out, tmp2y, tmp2xy, tmp2xmy, tmp2yz, tmp2ymz,
    hux, huy, huz, hfx, hfy, hfz]
  ring

/-- At a zero-velocity, zero-force site the z-moment of the post-collision
values is `itaurho` times the old z-moment. -/
theorem momzOut (p : LBMParams) (s : LBMState) (m : ℤ)
    (hux : ux p s m = 0) (huy : uy p s m = 0) (huz : uz p s m = 0)
    (hfx : fx p s m = 0) (hfy : fy p s m = 0) (hfz : fz p s m = 0) :
    g5out p s m - g6out p s m + g11out p s m - g12out p s m - g13out p s m +
      g14out p s m + g15out p s m - g16out p s m - g17out p s m +
      g18out p s m =
      p.itaurho * (s.g5 (m + p.current) - s.g6 (m + p.current) +
        s.g11 (m + p.current) - s.g12 (m + p.current) -
        s.g13 (m + p.current) + s.g14 (m + p.current) +
        s.g15 (m + p.current) - s.g16 (m + p.current) -
        s.g17 (m + p.current) + s.g18 (m + p.current)) := by
  simp only [g5out, g6out, g11out, g12out, g13out, g14out, g15out, g16out,
    g17out, g18out, tmp2z, tmp2xz, tmp2xmz, tmp2yz, tmp2ymz,
    hux, huy, huz, hfx, hfy, hfz]
  ring

/-- The uniform-state dynamics in closed form: each new uniform value is the
corresponding written value of the kernel body evaluated on the uniform
state. -/
theorem stepU_eq (p : LBMParams) (grav : ℚ) (U : UVals) :
    stepU p grav U =
      ⟨U.phi,
        f0out p (constState U) (midx p 0 0 0),
        f1out p (constState U) (midx p 0 0 0),
        f2out p (constState U) (midx p 0 0 0),
        f3out p (constState U) (midx p 0 0 0),
        f4out p (constState U) (midx p 0 0 0),
        f5out p (constState U) (midx p 0 0 0),
        f6out p (constState U) (midx p 0 0 0),
        g0out p (constState U) (midx p 0 0 0),
        g1out p (constState U) (midx p 0 0 0),
        g2out p (constState U) (midx p 0 0 0),
        g3out p (constState U) (midx p 0 0 0),
        g4out p (constState U) (midx p 0 0 0),
        g5out p (constState U) (midx p 0 0 0),
        g6out p (constState U) (midx p 0 0 0),
        g7out p (constState U) (midx p 0 0 0),
        g8out p (constState U) (midx p 0 0 0),
        g9out p (constState U) (midx p 0 0 0),
        g10out p (constState U) (midx p 0 0 0),
        g11out p (constState U) (midx p 0 0 0),
        g12out p (constState U) (midx p 0 0 0),
        g13out p (constState U) (midx p 0 0 0),
        g14out p (constState U) (midx p 0 0 0),
        g15out p (constState U) (midx p 0 0 0),
        g16out p (constState U) (midx p 0 0 0),
        g17out p (constState U) (midx p 0 0 0),
        g18out p (constState U) (midx p 0 0 0)⟩ := by
  simp [stepU, kernelSite, Nat.zero_le]

/-- `stepU` does not change the (uniform) order parameter. -/
theorem stepU_phi (p : LBMParams) (grav : ℚ) (U : UVals) :
    (stepU p grav U).phi = U.phi := rfl

/-- The zeroth hydrodynamic moment of a uniform zero-velocity state is
preserved by one uniform step, given the weight identities. -/
theorem rhoU_step (p : LBMParams) (grav : ℚ) (U : UVals)
    (h2 : p.itaurho = 1 - (p.eg0 + 6 * p.eg1 + 12 * p.eg2))
    (h3 : p.eg0 = 3 * p.eg1 + 6 * p.eg2)
    (hux : ux p (constState U) (midx p 0 0 0) = 0)
    (huy : uy p (constState U) (midx p 0 0 0) = 0)
    (huz : uz p (constState U) (midx p 0 0 0) = 0) :
    rhoU (stepU p grav U) = rhoU U := by
  simp only [stepU_eq, rhoU]
  rw [hydroOutSum p (constState U) (midx p 0 0 0) hux huy huz
    (fx_const p U _) (fy_const p U _) (fz_const p U _) h2 h3]
  rfl

/-- One uniform step relaxes the phase-field zeroth moment toward `phi`. -/
theorem phaseU_step (p : LBMParams) (grav : ℚ) (U : UVals) :
    phaseU (stepU p grav U) =
      p.itauphi1 * phaseU U + p.itauphi * U.phi := by
  simp only [stepU_eq, phaseU]
  rw [phaseOutSum p (constState U) (midx p 0 0 0)]
  rfl

/-- Zero recovered x-velocity is preserved by one uniform step. -/
theorem ux_step (p : LBMParams) (grav : ℚ) (U : UVals)
    (h2 : p.itaurho = 1 - (p.eg0 + 6 * p.eg1 + 12 * p.eg2))
    (h3 : p.eg0 = 3 * p.eg1 + 6 * p.eg2)
    (hux : ux p (constState U) (midx p 0 0 0) = 0)
    (huy : uy p (constState U) (midx p 0 0 0) = 0)
    (huz : uz p (constState U) (midx p 0 0 0) = 0) :
    ux p (constState (stepU p grav U)) (midx p 0 0 0) = 0 := by
  have hM0 : (U.g1 - U.g2 + U.g7 - U.g8 + U.g9 - U.g10 + U.g11 - U.g12 +
      U.g13 - U.g14) * (1 / rhoU U) = 0 := by
    rw [← ux_const p U (midx p 0 0 0)]; exact hux
  rw [ux_const]
  have hstep : (stepU p grav U).g1 - (stepU p grav U).g2 +
      (stepU p grav U).g7 - (stepU p grav U).g8 + (stepU p grav U).g9 -
      (stepU p grav U).g10 + (stepU p grav U).g11 - (stepU p grav U).g12 +
      (stepU p grav U).g13 - (stepU p grav U).g14 =
      p.itaurho * (U.g1 - U.g2 + U.g7 - U.g8 + U.g9 - U.g10 + U.g11 -
        U.g12 + U.g13 - U.g14) := by
    simp only [stepU_eq]
    rw [momxOut p (constState U) (midx p 0 0 0) hux huy huz
      (fx_const p U _) (fy_const p U _) (fz_const p U _)]
    rfl
  rw [hstep, rhoU_step p grav U h2 h3 hux huy huz, mul_assoc, hM0, mul_zero]

/-- Zero recovered y-velocity is preserved by one uniform step. -/
theorem uy_step (p : LBMParams) (grav : ℚ) (U : UVals)
    (h2 : p.itaurho = 1 - (p.eg0 + 6 * p.eg1 + 12 * p.eg2))
    (h3 : p.eg0 = 3 * p.eg1 + 6 * p.eg2)
    (hux : ux p (constState U) (midx p 0 0 0) = 0)
    (huy : uy p (constState U) (midx p 0 0 0) = 0)
    (huz : uz p (constState U) (midx p 0 0 0) = 0) :
    uy p (constState (stepU p grav U)) (midx p 0 0 0) = 0 := by
  have hM0 : (U.g3 - U.g4 + U.g7 - U.g8 - U.g9 + U.g10 + U.g15 - U.g16 +
      U.g17 - U.g18) * (1 / rhoU U) = 0 := by
    rw [← uy_const p U (midx p 0 0 0)]; exact huy
  rw [uy_const]
  have hstep : (stepU p grav U).g3 - (stepU p grav U).g4 +
      (stepU p grav U).g7 - (stepU p grav U).g8 - (stepU p grav U).g9 +
      (stepU p grav U).g10 + (stepU p grav U).g15 - (stepU p grav U).g16 +
      (stepU p grav U).g17 - (stepU p grav U).g18 =
      p.itaurho * (U.g3 - U.g4 + U.g7 - U.g8 - U.g9 + U.g10 + U.g15 -
        U.g16 + U.g17 - U.g18) := by
    simp only [stepU_eq]
    rw [momyOut p (constState U) (midx p 0 0 0) hux huy huz
      (fx_const p U _) (fy_const p U _) (fz_const p U _)]
    rfl
  rw [hstep, rhoU_step p grav U h2 h3 hux huy huz, mul_assoc, hM0, mul_zero]

/-- Zero recovered z-velocity is preserved by one uniform step. -/
theorem uz_step (p : LBMParams) (grav : ℚ) (U : UVals)
    (h2 : p.itaurho = 1 - (p.eg0 + 6 * p.eg1 + 12 * p.eg2))
    (h3 : p.eg0 = 3 * p.eg1 + 6 * p.eg2)
    (hux : ux p (constState U) (midx p 0 0 0) = 0)
    (huy : uy p (constState U) (midx p 0 0 0) = 0)
    (huz : uz p (constState U) (midx p 0 0 0) = 0) :
    uz p (constState (stepU p grav U)) (midx p 0 0 0) = 0 := by
  have hM0 : (U.g5 - U.g6 + U.g11 - U.g12 - U.g13 + U.g14 + U.g15 - U.g16 -
      U.g17 + U.g18) * (1 / rhoU U) = 0 := by
    rw [← uz_const p U (midx p 0 0 0)]; exact huz
  rw [uz_const]
  have hstep : (stepU p grav U).g5 - (stepU p grav U).g6 +
      (stepU p grav U).g11 - (stepU p grav U).g12 - (stepU p grav U).g13 +
      (stepU p grav U).g14 + (stepU p grav U).g15 - (stepU p grav U).g16 -
      (stepU p grav U).g17 + (stepU p grav U).g18 =
      p.itaurho * (U.g5 - U.g6 + U.g11 - U.g12 - U.g13 + U.g14 + U.g15 -
        U.g16 - U.g17 + U.g18) := by
    simp only [stepU_eq]
    rw [momzOut p (constState U) (midx p 0 0 0) hux huy huz
      (fx_const p U _) (fy_const p U _) (fz_const p U _)]
    rfl
  rw [hstep, rhoU_step p grav U h2 h3 hux huy huz, mul_assoc, hM0, mul_zero]

/-- C8 (amended): if the state is spatially uniform with zero gradient and
Laplacian of `phi` and zero recovered velocity, and in addition the
relaxation factors are complementary (`itauphi1 = 1 - itauphi` and
`itaurho = 1 - (eg0 + 6 eg1 + 12 eg2)`), the rest weight balances the
directional weights (`eg0 = 3 eg1 + 6 eg2`), and the phase-field zeroth
moment initially equals `phi`, then repeated application of the kernel
leaves the hydrodynamic zeroth moment `rho` and the phase-field zeroth
moment unchanged. -/
theorem C8_uniform_equilibrium (p : LBMParams) (grav : ℚ) (U : UVals)
    (h1 : p.itauphi1 = 1 - p.itauphi)
    (h2 : p.itaurho = 1 - (p.eg0 + 6 * p.eg1 + 12 * p.eg2))
    (h3 : p.eg0 = 3 * p.eg1 + 6 * p.eg2)
    (h4 : phaseU U = U.phi)
    (hux : ux p (constState U) (midx p 0 0 0) = 0)
    (huy : uy p (constState U) (midx p 0 0 0) = 0)
    (huz : uz p (constState U) (midx p 0 0 0) = 0) :
    ∀ n : ℕ, rhoU ((stepU p grav)^[n] U) = rhoU U ∧
      phaseU ((stepU p grav)^[n] U) = phaseU U := by
  have key : ∀ n : ℕ,
      phaseU ((stepU p grav)^[n] U) = ((stepU p grav)^[n] U).phi ∧
      ((stepU p grav)^[n] U).phi = U.phi ∧
      ux p (constState ((stepU p grav)^[n] U)) (midx p 0 0 0) = 0 ∧
      uy p (constState ((stepU p grav)^[n] U)) (midx p 0 0 0) = 0 ∧
      uz p (constState ((stepU p grav)^[n] U)) (midx p 0 0 0) = 0 ∧
      rhoU ((stepU p grav)^[n] U) = rhoU U ∧
      phaseU ((stepU p grav)^[n] U) = phaseU U := by
    intro n
    induction n with
    | zero =>
      rw [Function.iterate_zero_apply]
      exact ⟨h4, rfl, hux, huy, huz, rfl, rfl⟩
    | succ n ih =>
      obtain ⟨ih1, ih2, ihx, ihy, ihz, ihr, ihp⟩ := ih
      rw [Function.iterate_succ_apply']
      set V := (stepU p grav)^[n] U with hV
      refine ⟨?_, ?_, ?_, ?_, ?_, ?_, ?_⟩
      · rw [phaseU_step, stepU_phi, ih1, h1]; ring
      · rw [stepU_phi]; exact ih2
      · exact ux_step p grav V h2 h3 ihx ihy ihz
      · exact uy_step p grav V h2 h3 ihx ihy ihz
      · exact uz_step p grav V h2 h3 ihx ihy ihz
      · rw [rhoU_step p grav V h2 h3 ihx ihy ihz]; exact ihr
      · rw [phaseU_step, h1, ← ih1, ihp]; ring
  intro n
  exact ⟨(key n).2.2.2.2.2.1, (key n).2.2.2.2.2.2⟩

/-- Witness for `C8_uniform_equilibrium`: the D3Q19 weights over `tau = 1`
with a resting uniform state whose phase moment matches `phi`; two steps
leave both moments unchanged. -/
theorem C8_uniform_equilibrium_witness :
    (pEq.itauphi1 = 1 - pEq.itauphi ∧
      pEq.itaurho = 1 - (pEq.eg0 + 6 * pEq.eg1 + 12 * pEq.eg2) ∧
      pEq.eg0 = 3 * pEq.eg1 + 6 * pEq.eg2 ∧
      phaseU uEq = uEq.phi ∧
      ux pEq (constState uEq) (midx pEq 0 0 0) = 0 ∧
      uy pEq (constState uEq) (midx pEq 0 0 0) = 0 ∧
      uz pEq (constState uEq) (midx pEq 0 0 0) = 0) ∧
      (rhoU ((stepU pEq 0)^[2] uEq) = rhoU uEq ∧
        phaseU ((stepU pEq 0)^[2] uEq) = phaseU uEq) :=
  ⟨⟨by norm_num [pEq], by norm_num [pEq], by norm_num [pEq],
      by norm_num [phaseU, uEq],
      by norm_num [ux, irho, fx, rho, constState, uEq],
      by norm_num [uy, irho, fy, rho, constState, uEq],
      by norm_num [uz, irho, fz, rho, constState, uEq]⟩,
    C8_uniform_equilibrium pEq 0 uEq
      (by norm_num [pEq]) (by norm_num [pEq]) (by norm_num [pEq])
      (by norm_num [phaseU, uEq])
      (by norm_num [ux, irho, fx, rho, constState, uEq])
      (by norm_num [uy, irho, fy, rho, constState, uEq])
      (by norm_num [uz, irho, fz, rho, constState, uEq]) 2⟩

/-- Counterexample to C8 as stated (without any condition on the relaxation
factors, lattice weights or initial phase moment): at `pCx`, `uCx` the state
is spatially uniform with zero recovered velocity, yet one application of
the kernel changes both the hydrodynamic and the phase-field zeroth
moments. -/
theorem C8_counterexample :
    (ux pCx (constState uCx) (midx pCx 0 0 0) = 0 ∧
      uy pCx (constState uCx) (midx pCx 0 0 0) = 0 ∧
      uz pCx (constState uCx) (midx pCx 0 0 0) = 0) ∧
      rhoU ((stepU pCx 0)^[1] uCx) ≠ rhoU uCx ∧
      phaseU ((stepU pCx 0)^[1] uCx) ≠ phaseU uCx := by
  refine ⟨⟨?_, ?_, ?_⟩, ?_, ?_⟩
  · norm_num [ux, irho, fx, rho, constState, uCx]
  · norm_num [uy, irho, fy, rho, constState, uCx]
  · norm_num [uz, irho, fz, rho, constState, uCx]
  · rw [Function.iterate_one, stepU_eq]
    norm_num [rhoU, g0out, g1out, g2out, g3out, g4out, g5out, g6out, g7out,
      g8out, g9out, g10out, g11out, g12out, g13out, g14out, g15out, g16out,
      g17out, g18out, tmp1x, tmp2x, tmp1y, tmp2y, tmp1z, tmp2z, tmp1xy,
      tmp2xy, tmp1xmy, tmp2xmy, tmp1xz, tmp2xz, tmp1xmz, tmp2xmz, tmp1yz,
      tmp2yz, tmp1ymz, tmp2ymz, ag, vv, uf, ux, uy, uz, fx, fy, fz, irho,
      rho, mu_phi, constState, uCx, pCx]
  · rw [Function.iterate_one, stepU_eq]
    norm_num [phaseU, f0out, f1out, f2out, f3out, f4out, f5out, f6out, af,
      cf, ux, uy, uz, irho, fx, fy, fz, rho, mu_phi, constState, uCx, pCx]

/-- C9: two kernel invocations whose inputs differ only in the `grav`
parameter produce identical results, both for a single thread and for a full
pass: the observable computation does not depend on `grav`. -/
theorem C9_grav_unused (p : LBMParams) (grav grav' : ℚ) (s : LBMState)
    (i j z : ℕ) :
    kernelSite p grav s i j z = kernelSite p grav' s i j z ∧
      kernelPass p grav s = kernelPass p grav' s :=
  ⟨rfl, rfl⟩

end LBM
